import Mathlib

/-!
Shallow embedding of the ebuspaybackend wallet/payment routes.

The repository holds several near-duplicate Express backends.  We embed
the balance-affecting routes of each variant as pure state-transition
functions:

* Variant A (`server.js`, first document): Postgres + Paystack —
  `POST /api/initialize` and `POST /api/verify`.
* Variant B (`server.js`, second document): Postgres "Paybill" —
  `POST /api/services/airtime`, `POST /api/services/data`,
  `POST /api/deposit`.
* Variant M (`part_000`): in-memory arrays — `POST /api/transactions/deposit`.
* Variant E (`part_001`): Mongo "EbusPay" — `POST /api/payments/verify`.

Currency amounts are modelled as `Int` (the JS code only adds, subtracts
and compares them); variant E's kobo division and 0.01 tolerance use `Rat`.
JS truthiness of a missing/empty string maps to `""`, of a zero amount to
`0`.  The Paystack gateway call is an explicit parameter (`GwResult`):
a transient network error (axios throw), a definitive non-success body,
or a success body carrying the gateway-reported amount.  Each SQL
statement commits on its own (no transaction block in the source), so a
route that has already run an `UPDATE` keeps that effect even when a later
`INSERT` hits a unique constraint and the route's catch-all answers 500.
-/

namespace EbusPay

/-! ### Variant A: `server.js` first document (Paystack + Postgres) -/

/-- A row of the `payments` table: `status` is `"pending"`, `"success"`
or `"failed"`; `reference` is `UNIQUE`. -/
structure Payment where
  user_id : Nat
  ptype : String
  service_type : Option String
  amount : Int
  reference : String
  status : String
deriving Repr, DecidableEq

/-- A row of the `transactions` table of variant A. -/
structure Txn where
  user_id : Nat
  ttype : String
  service_type : Option String
  amount : Int
  reference : String
deriving Repr, DecidableEq

/-- Database state of variant A: user balances, `payments`, `transactions`. -/
structure St where
  bal : Nat → Int
  payments : List Payment
  txns : List Txn

/-- `SELECT * FROM payments WHERE reference=$1` (first row; the column is
`UNIQUE`). -/
def findPayment (ps : List Payment) (ref : String) : Option Payment :=
  ps.find? (fun p => p.reference == ref)

/-- `UPDATE payments SET status=$1 WHERE id=$2`, addressed through the
unique reference of the row the route already fetched. -/
def setStatus (ps : List Payment) (ref s : String) : List Payment :=
  ps.map (fun p => if p.reference == ref then { p with status := s } else p)

/-- Result of the Paystack verify call as the route observes it. -/
inductive GwResult where
  | success (amount : Int)
  | failure
  | transientError
deriving Repr, DecidableEq

/-- JSON answer of `POST /api/verify`. -/
inductive Resp where
  | ok (message : String) (balance : Int)
  | err (code : Nat) (message : String)
deriving Repr, DecidableEq

/-- JSON answer of `POST /api/initialize`. -/
inductive InitResp where
  | ok (reference : String) (amount : Int)
  | err (code : Nat) (message : String)
deriving Repr, DecidableEq

/-- JS `a || b` on a nullable string column. -/
def orDefault (o : Option String) (d : String) : String :=
  match o with
  | none => d
  | some s => if s = "" then d else s

/-- `POST /api/initialize` (server.js:131-143).  Only `!type || !amount`
is checked; the generated reference is inserted as a `pending` payments
row; any insert failure (in particular the `UNIQUE` violation on
`reference`) lands in the catch-all 500. -/
def initializePayment (st : St) (caller : Nat) (ptype : String)
    (service_type : Option String) (amount : Int) (genRef : String) :
    InitResp × St :=
  if ptype = "" ∨ amount = 0 then (.err 400 "Missing fields", st)
  else if (findPayment st.payments genRef).isSome then
    (.err 500 "Initialization failed", st)
  else
    (.ok genRef amount,
      { st with payments :=
          st.payments ++ [⟨caller, ptype, service_type, amount, genRef, "pending"⟩] })

/-- `POST /api/verify` (server.js:146-202).  Short-circuits only on
`status === 'success'`; on a gateway non-success body it marks the row
`failed`; on success it marks the row `success` and, for `type ===
'deposit'`, credits the **caller's** balance by the stored intent amount
(the gateway-reported amount is never consulted). -/
def verify (st : St) (caller : Nat) (ref : String) (secretConfigured : Bool)
    (gw : GwResult) : Resp × St :=
  if ref = "" then (.err 400 "Missing reference", st)
  else
    match findPayment st.payments ref with
    | none => (.err 400 "Payment not found", st)
    | some p =>
      if p.status = "success" then
        (.ok "Already verified" (st.bal caller), st)
      else if secretConfigured = false then
        (.err 500 "Paystack secret not configured", st)
      else
        match gw with
        | .transientError => (.err 500 "Verification failed", st)
        | .failure =>
          (.err 400 "Payment not successful on Paystack",
            { st with payments := setStatus st.payments ref "failed" })
        | .success _ =>
          let st1 : St := { st with payments := setStatus st.payments ref "success" }
          if p.ptype = "deposit" then
            let st2 : St :=
              { st1 with
                bal := fun u => if u = caller then st1.bal u + p.amount else st1.bal u,
                txns := st1.txns ++
                  [⟨caller, "deposit", some (orDefault p.service_type "deposit"),
                    p.amount, ref⟩] }
            (.ok "Payment verified" (st2.bal caller), st2)
          else
            let st2 : St :=
              { st1 with txns := st1.txns ++
                  [⟨caller, p.ptype, p.service_type, p.amount, ref⟩] }
            (.ok "Payment verified" (st2.bal caller), st2)

/-- `n` sequential `POST /api/verify` calls with the same caller,
reference and gateway answer (state part). -/
def verifyIter (caller : Nat) (ref : String) (gw : GwResult) :
    Nat → St → St
  | 0, st => st
  | n + 1, st => verifyIter caller ref gw n (verify st caller ref true gw).2

/-! ### Variant B: `server.js` second document ("Paybill") -/

/-- A row of variant B's `transactions` table: `status` defaults to
`'completed'` and `reference` is `UNIQUE`. -/
structure TxnB where
  user_id : Nat
  ttype : String
  description : String
  amount : Int
  reference : String
  status : String
deriving Repr, DecidableEq

/-- A row of the `deposits` table (`reference UNIQUE NOT NULL`). -/
structure DepositRow where
  user_id : Nat
  amount : Int
  reference : String
  status : String
deriving Repr, DecidableEq

/-- Database state of variant B. -/
structure StB where
  bal : Nat → Int
  txns : List TxnB
  deposits : List DepositRow

/-- Does a transactions row with this reference already exist? -/
def hasTxnRef (l : List TxnB) (r : String) : Bool :=
  l.any (fun t => t.reference == r)

/-- Does a deposits row with this reference already exist? -/
def hasDepRef (l : List DepositRow) (r : String) : Bool :=
  l.any (fun d => d.reference == r)

/-- JSON answer of the service-purchase routes. -/
inductive SvcResp where
  | ok (message : String) (reference : String) (balance : Int)
  | err (code : Nat) (message : String)
deriving Repr, DecidableEq

/-- JSON answer of `POST /api/deposit`. -/
inductive DepResp where
  | ok (message : String) (balance : Int)
  | err (code : Nat) (message : String)
deriving Repr, DecidableEq

/-- `POST /api/services/airtime` (server.js:497-541).  Field check, a
₦50 minimum, an insufficient-balance check, then `UPDATE` the balance
followed by the transactions `INSERT`; a reference collision at the
insert fires the catch-all 500 with the deduction already committed. -/
def airtime (st : StB) (caller : Nat) (network phone : String)
    (amount : Int) (genRef : String) : SvcResp × StB :=
  if network = "" ∨ phone = "" ∨ amount = 0 then
    (.err 400 "All fields are required", st)
  else if amount < 50 then (.err 400 "Minimum airtime is ₦50", st)
  else if st.bal caller < amount then (.err 400 "Insufficient balance", st)
  else
    let st1 : StB :=
      { st with bal := fun u => if u = caller then st.bal u - amount else st.bal u }
    if hasTxnRef st1.txns genRef then (.err 500 "Server error", st1)
    else
      let st2 : StB :=
        { st1 with txns := st1.txns ++
            [⟨caller, "airtime", network ++ " Airtime - " ++ phone, amount,
              genRef, "completed"⟩] }
      (.ok "Airtime purchase successful" genRef (st2.bal caller), st2)

/-- `POST /api/services/data` (server.js:544-584).  Same shape as
airtime but with **no minimum-amount check at all**: any non-zero
amount that clears the `balance < amount` test is deducted. -/
def dataPurchase (st : StB) (caller : Nat) (network plan phone : String)
    (amount : Int) (genRef : String) : SvcResp × StB :=
  if network = "" ∨ plan = "" ∨ phone = "" ∨ amount = 0 then
    (.err 400 "All fields are required", st)
  else if st.bal caller < amount then (.err 400 "Insufficient balance", st)
  else
    let st1 : StB :=
      { st with bal := fun u => if u = caller then st.bal u - amount else st.bal u }
    if hasTxnRef st1.txns genRef then (.err 500 "Server error", st1)
    else
      let st2 : StB :=
        { st1 with txns := st1.txns ++
            [⟨caller, "data", network ++ " Data - " ++ plan ++ " to " ++ phone,
              amount, genRef, "completed"⟩] }
      (.ok "Data purchase successful" genRef (st2.bal caller), st2)

/-- `POST /api/deposit` (server.js:684-719).  A ₦100 minimum, then the
balance `UPDATE` commits **before** the `deposits` and `transactions`
inserts; a `UNIQUE` collision on the caller-supplied reference at either
insert fires the catch-all 500 with the credit already committed.  No
gateway call, no uniqueness pre-check. -/
def deposit (st : StB) (caller : Nat) (amount : Int)
    (refOpt : Option String) (genRef : String) : DepResp × StB :=
  if amount = 0 ∨ amount < 100 then (.err 400 "Minimum deposit is ₦100", st)
  else
    let dref := orDefault refOpt genRef
    let st1 : StB :=
      { st with bal := fun u => if u = caller then st.bal u + amount else st.bal u }
    if hasDepRef st1.deposits dref then (.err 500 "Server error", st1)
    else
      let st2 : StB :=
        { st1 with deposits := st1.deposits ++ [⟨caller, amount, dref, "completed"⟩] }
      if hasTxnRef st2.txns dref then (.err 500 "Server error", st2)
      else
        let st3 : StB :=
          { st2 with txns := st2.txns ++
              [⟨caller, "deposit", "Account deposit", amount, dref, "completed"⟩] }
        (.ok "Deposit successful" (st3.bal caller), st3)

/-! ### Variant M: `part_000` (in-memory arrays) -/

/-- An element of the in-memory `transactions` array. -/
structure MemTxn where
  userId : String
  ttype : String
  amount : Int
  reference : String
deriving Repr, DecidableEq

/-- The in-memory store: the `users` array (id and balance) and the
`transactions` array. -/
structure MemSt where
  users : List (String × Int)
  txns : List MemTxn
deriving Repr, DecidableEq

/-- `POST /api/transactions/deposit` (part_000:92-99): find the caller,
`user.balance += amount`, push a transaction carrying the caller-supplied
reference unchanged.  No amount validation, no reference uniqueness
check, no gateway call. -/
def memDeposit (st : MemSt) (callerId : String) (amount : Int)
    (reference : String) : Bool × MemSt :=
  match st.users.find? (fun u => u.1 == callerId) with
  | none => (false, st)
  | some _ =>
    (true,
      { users := st.users.map
          (fun u => if u.1 == callerId then (u.1, u.2 + amount) else u),
        txns := st.txns ++ [⟨callerId, "Deposit", amount, reference⟩] })

/-- `n` sequential in-memory deposit calls (state part). -/
def memDepositIter (callerId : String) (amount : Int) (reference : String) :
    Nat → MemSt → MemSt
  | 0, st => st
  | n + 1, st => memDepositIter callerId amount reference n
      (memDeposit st callerId amount reference).2

/-- Balance the in-memory store holds for an id (0 if absent). -/
def memBal (st : MemSt) (cid : String) : Int :=
  (st.users.find? (fun u => u.1 == cid)).elim 0 (fun u => u.2)

/-! ### Variant E: `part_001` (Mongo "EbusPay") verify -/

/-- JSON answer of variant E's `POST /api/payments/verify`. -/
inductive EbusVerifyResp where
  | ok (amount : Rat) (reference : String)
  | err (code : Nat) (message : String)
deriving Repr, DecidableEq

/-- `POST /api/payments/verify` (part_001:129-146).  Divides the
gateway-reported kobo amount by 100 and compares it against the
**caller-supplied** `amount` with a 0.01 tolerance; touches no stored
state at all (no transaction row, no balance). -/
def ebusVerify (reference : String) (amount : Rat) (gwOk : Bool)
    (gwAmountKobo : Rat) : EbusVerifyResp :=
  if reference = "" then .err 400 "Reference required"
  else if gwOk = false then .err 500 "Error verifying payment"
  else
    let paidAmount := gwAmountKobo / 100
    if 1 / 100 < |paidAmount - amount| then .err 400 "Amount mismatch"
    else .ok paidAmount reference

/-! ### Helper lemmas -/

/-- Updating the status of the row with reference `ref` commutes with
looking that reference up. -/
theorem findPayment_setStatus (ps : List Payment) (ref s : String) :
    findPayment (setStatus ps ref s) ref =
      (findPayment ps ref).map (fun p => { p with status := s }) := by
  induction ps with
  | nil => rfl
  | cons q qs ih =>
    by_cases h : q.reference = ref
    · have hb : (q.reference == ref) = true := by simp [h]
      simp only [findPayment, setStatus, List.map_cons, List.find?_cons, hb, if_true]
      simp [hb]
    · have hb : (q.reference == ref) = false := by simp [h]
      simp only [findPayment, setStatus, List.map_cons, List.find?_cons, hb,
        Bool.false_eq_true, if_false] at ih ⊢
      exact ih

/-- A verify call that finds an already-`success` row answers
"Already verified" with the caller's balance and leaves the state
untouched. -/
theorem verify_stable (st : St) (caller : Nat) (ref : String) (sec : Bool)
    (gw : GwResult) (p : Payment) (href : ref ≠ "")
    (hfind : findPayment st.payments ref = some p)
    (hst : p.status = "success") :
    verify st caller ref sec gw = (.ok "Already verified" (st.bal caller), st) := by
  simp [verify, href, hfind, hst]

/-- Iterating verify from a state whose row is already `success` is the
identity on the state. -/
theorem verifyIter_stable (st : St) (caller : Nat) (ref : String)
    (gw : GwResult) (p : Payment) (n : Nat) (href : ref ≠ "")
    (hfind : findPayment st.payments ref = some p)
    (hst : p.status = "success") :
    verifyIter caller ref gw n st = st := by
  induction n with
  | zero => rfl
  | succ n ih =>
    rw [verifyIter, verify_stable st caller ref true gw p href hfind hst]
    exact ih

/-- One verify call on a pending (non-`success`) `deposit` row with a
gateway success body: the row becomes `success`, the caller's balance is
credited by the stored amount, a deposit transaction is appended. -/
theorem verify_success_deposit (st : St) (caller : Nat) (ref : String)
    (a : Int) (p : Payment) (href : ref ≠ "")
    (hfind : findPayment st.payments ref = some p)
    (hst : p.status ≠ "success") (hd : p.ptype = "deposit") :
    verify st caller ref true (.success a) =
      (.ok "Payment verified" (st.bal caller + p.amount),
        { bal := fun u => if u = caller then st.bal u + p.amount else st.bal u,
          payments := setStatus st.payments ref "success",
          txns := st.txns ++ [⟨caller, "deposit",
            some (orDefault p.service_type "deposit"), p.amount, ref⟩] }) := by
  simp [verify, href, hfind, hst, hd]

/-- One verify call on a pending non-`deposit` row with a gateway
success body: the row becomes `success`, a transaction is recorded, the
balance is left alone (server.js:183-192). -/
theorem verify_success_service (st : St) (caller : Nat) (ref : String)
    (a : Int) (p : Payment) (href : ref ≠ "")
    (hfind : findPayment st.payments ref = some p)
    (hst : p.status ≠ "success") (hnd : p.ptype ≠ "deposit") :
    verify st caller ref true (.success a) =
      (.ok "Payment verified" (st.bal caller),
        { st with
          payments := setStatus st.payments ref "success",
          txns := st.txns ++ [⟨caller, p.ptype, p.service_type, p.amount, ref⟩] }) := by
  simp [verify, href, hfind, hst, hnd]

/-- When no variant-B transactions row carries reference `r`, filtering
for `r` yields nothing. -/
theorem filter_ref_nil (l : List TxnB) (r : String)
    (h : hasTxnRef l r = false) :
    l.filter (fun t => t.reference == r) = [] := by
  induction l with
  | nil => rfl
  | cons t ts ih =>
    simp only [hasTxnRef, List.any_cons, Bool.or_eq_false_iff] at h
    simp [List.filter_cons, h.1, ih h.2]

/-- The in-memory balance update commutes with looking the user up. -/
theorem memFind_update (us : List (String × Int)) (cid : String) (a : Int) :
    (us.map (fun u => if u.1 == cid then (u.1, u.2 + a) else u)).find?
        (fun u => u.1 == cid) =
      (us.find? (fun u => u.1 == cid)).map (fun u => (u.1, u.2 + a)) := by
  induction us with
  | nil => rfl
  | cons q qs ih =>
    by_cases h : q.1 = cid
    · have hb : (q.1 == cid) = true := by simp [h]
      simp only [List.map_cons, List.find?_cons, hb, if_true]
      simp [hb]
    · have hb : (q.1 == cid) = false := by simp [h]
      simp only [List.map_cons, List.find?_cons, hb, Bool.false_eq_true,
        if_false] at ih ⊢
      exact ih

/-- The in-memory deposit on an existing user, in explicit form. -/
theorem memDeposit_found (st : MemSt) (cid : String) (a : Int) (r : String)
    (u0 : String × Int)
    (hfind : st.users.find? (fun u => u.1 == cid) = some u0) :
    memDeposit st cid a r =
      (true,
        { users := st.users.map
            (fun u => if u.1 == cid then (u.1, u.2 + a) else u),
          txns := st.txns ++ [⟨cid, "Deposit", a, r⟩] }) := by
  simp [memDeposit, hfind]

/-! ### Claim theorems -/

/-- C1 (amended): for a reference in the *completed* (`'success'`)
state, verify is idempotent — `n ≥ 1` sequential verify calls on a
pending deposit intent with a gateway success body credit the caller
exactly once by the intent's recorded amount, leave the row `success`,
and every further verify answers the stored outcome with the current
balance and leaves the state untouched.  (The `failed` state is *not*
short-circuited by the code; see the counterexample.) -/
theorem C1_completed_idempotent_single_credit
    (st : St) (caller : Nat) (ref : String) (a : Int) (p : Payment) (n : Nat)
    (href : ref ≠ "") (hfind : findPayment st.payments ref = some p)
    (hp : p.status = "pending") (hd : p.ptype = "deposit") (hn : 1 ≤ n) :
    (∀ u, (verifyIter caller ref (.success a) n st).bal u =
        if u = caller then st.bal u + p.amount else st.bal u) ∧
    findPayment (verifyIter caller ref (.success a) n st).payments ref =
      some { p with status := "success" } ∧
    verify (verifyIter caller ref (.success a) n st) caller ref true (.success a) =
      (.ok "Already verified"
          ((verifyIter caller ref (.success a) n st).bal caller),
        verifyIter caller ref (.success a) n st) := by
  obtain ⟨m, rfl⟩ : ∃ m, n = m + 1 := ⟨n - 1, by omega⟩
  have hst : p.status ≠ "success" := by rw [hp]; decide
  have hstep := verify_success_deposit st caller ref a p href hfind hst hd
  set st2 : St :=
    { bal := fun u => if u = caller then st.bal u + p.amount else st.bal u,
      payments := setStatus st.payments ref "success",
      txns := st.txns ++ [⟨caller, "deposit",
        some (orDefault p.service_type "deposit"), p.amount, ref⟩] } with hst2
  have hfind2 : findPayment st2.payments ref = some { p with status := "success" } := by
    rw [hst2]
    show findPayment (setStatus st.payments ref "success") ref = _
    rw [findPayment_setStatus, hfind]
    rfl
  have hiter : verifyIter caller ref (.success a) (m + 1) st = st2 := by
    rw [verifyIter, hstep]
    exact verifyIter_stable st2 caller ref _ _ m href hfind2 rfl
  rw [hiter]
  exact ⟨fun u => rfl, hfind2,
    verify_stable st2 caller ref true _ _ href hfind2 rfl⟩

/-- C1 witness: balance 0, pending deposit of 500 under `"R1"`, two
sequential verifies credit exactly 500, and the row ends `success`. -/
theorem C1_witness :
    (verifyIter 1 "R1" (.success 500) 2
        (⟨fun _ => 0, [⟨1, "deposit", none, 500, "R1", "pending"⟩], []⟩ : St)).bal 1 =
      500 ∧
    findPayment (verifyIter 1 "R1" (.success 500) 2
        (⟨fun _ => 0, [⟨1, "deposit", none, 500, "R1", "pending"⟩], []⟩ : St)).payments
        "R1" = some ⟨1, "deposit", none, 500, "R1", "success"⟩ := by
  have h := C1_completed_idempotent_single_credit
    (⟨fun _ => 0, [⟨1, "deposit", none, 500, "R1", "pending"⟩], []⟩ : St)
    1 "R1" 500 ⟨1, "deposit", none, 500, "R1", "pending"⟩ 2
    (by decide) (by rfl) rfl rfl (by decide)
  exact ⟨by simpa using h.1 1, h.2.1⟩

/-- C1 counterexample: the claim quantifies over *every* terminal state,
but a `failed` row is not short-circuited: re-verifying it with a
gateway success body re-processes it — the route answers "Payment
verified" (not the stored failed outcome) and credits the caller. -/
theorem C1_counterexample_failed_is_reprocessed :
    (verify (⟨fun _ => 0, [⟨1, "deposit", none, 500, "R1", "failed"⟩], []⟩ : St)
        1 "R1" true (.success 500)).1 = .ok "Payment verified" 500 ∧
    (verify (⟨fun _ => 0, [⟨1, "deposit", none, 500, "R1", "failed"⟩], []⟩ : St)
        1 "R1" true (.success 500)).2.bal 1 = 500 := by
  exact ⟨rfl, rfl⟩

/-- C7: verifying a pending reference for which the gateway reports a
genuine (non-transient) failure answers an error, marks the row
`failed` (terminal), and changes no balance and no transactions row. -/
theorem C7_gateway_failure_marks_failed
    (st : St) (caller : Nat) (ref : String) (p : Payment)
    (href : ref ≠ "") (hfind : findPayment st.payments ref = some p)
    (hp : p.status = "pending") :
    (verify st caller ref true .failure).1 =
      .err 400 "Payment not successful on Paystack" ∧
    findPayment (verify st caller ref true .failure).2.payments ref =
      some { p with status := "failed" } ∧
    (∀ u, (verify st caller ref true .failure).2.bal u = st.bal u) ∧
    (verify st caller ref true .failure).2.txns = st.txns := by
  have hst : p.status ≠ "success" := by rw [hp]; decide
  have heq : verify st caller ref true .failure =
      (.err 400 "Payment not successful on Paystack",
        { st with payments := setStatus st.payments ref "failed" }) := by
    simp [verify, href, hfind, hst]
  rw [heq]
  refine ⟨rfl, ?_, fun u => rfl, rfl⟩
  show findPayment (setStatus st.payments ref "failed") ref = _
  rw [findPayment_setStatus, hfind]
  rfl

/-- C7 witness: pending deposit of 100 under `"R2"`, gateway failure:
row `failed`, balance stays 500. -/
theorem C7_witness :
    (verify (⟨fun _ => 500, [⟨1, "deposit", none, 100, "R2", "pending"⟩], []⟩ : St)
        1 "R2" true .failure).1 = .err 400 "Payment not successful on Paystack" ∧
    (verify (⟨fun _ => 500, [⟨1, "deposit", none, 100, "R2", "pending"⟩], []⟩ : St)
        1 "R2" true .failure).2.bal 1 = 500 := by
  have h := C7_gateway_failure_marks_failed
    (⟨fun _ => 500, [⟨1, "deposit", none, 100, "R2", "pending"⟩], []⟩ : St)
    1 "R2" ⟨1, "deposit", none, 100, "R2", "pending"⟩
    (by decide) (by rfl) rfl
  exact ⟨h.1, h.2.2.1 1⟩

/-- C9: the deposit credit of a successful verification goes to the
*authenticated caller* (`req.user.id`), not to the account recorded on
the intent: a caller other than the intent's creator gets the credit,
the creator's balance does not move, and the already-verified
short-circuit likewise reports the caller's balance. -/
theorem C9_verify_credits_caller_not_owner
    (st : St) (u1 u2 : Nat) (ref : String) (a : Int) (p : Payment)
    (href : ref ≠ "") (hfind : findPayment st.payments ref = some p)
    (hp : p.status = "pending") (hd : p.ptype = "deposit")
    (howner : p.user_id = u1) (hne : u2 ≠ u1) :
    (verify st u2 ref true (.success a)).2.bal u2 = st.bal u2 + p.amount ∧
    (verify st u2 ref true (.success a)).2.bal u1 = st.bal u1 ∧
    (verify (verify st u2 ref true (.success a)).2 u2 ref true (.success a)).1 =
      .ok "Already verified" ((verify st u2 ref true (.success a)).2.bal u2) := by
  have hst : p.status ≠ "success" := by rw [hp]; decide
  have hstep := verify_success_deposit st u2 ref a p href hfind hst hd
  rw [hstep]
  have hfind2 : findPayment (setStatus st.payments ref "success") ref =
      some { p with status := "success" } := by
    rw [findPayment_setStatus, hfind]
    rfl
  refine ⟨by simp, by simp [Ne.symm hne], ?_⟩
  rw [verify_stable _ u2 ref true _ { p with status := "success" } href hfind2 rfl]

/-- C9 witness: the intent belongs to user 7, user 2 verifies it and is
credited 500; user 7 stays at 0. -/
theorem C9_witness :
    (verify (⟨fun _ => 0, [⟨7, "deposit", none, 500, "R3", "pending"⟩], []⟩ : St)
        2 "R3" true (.success 500)).2.bal 2 = 500 ∧
    (verify (⟨fun _ => 0, [⟨7, "deposit", none, 500, "R3", "pending"⟩], []⟩ : St)
        2 "R3" true (.success 500)).2.bal 7 = 0 := by
  have h := C9_verify_credits_caller_not_owner
    (⟨fun _ => 0, [⟨7, "deposit", none, 500, "R3", "pending"⟩], []⟩ : St)
    7 2 "R3" 500 ⟨7, "deposit", none, 500, "R3", "pending"⟩
    (by decide) (by rfl) rfl rfl rfl (by decide)
  exact ⟨by simpa using h.1, by simpa using h.2.1⟩

/-- C4 (amended): settling a pending intent with a gateway success body
marks the row `success` and returns the post-operation balance; the
recorded amount is credited (to the authenticated caller) **only for
`deposit`-purpose intents** — a service-purpose intent records a
transaction and leaves every balance unchanged. -/
theorem C4_settle_completed_by_purpose
    (st : St) (caller : Nat) (ref : String) (a : Int) (p : Payment)
    (href : ref ≠ "") (hfind : findPayment st.payments ref = some p)
    (hp : p.status = "pending") :
    findPayment (verify st caller ref true (.success a)).2.payments ref =
      some { p with status := "success" } ∧
    (p.ptype = "deposit" →
      (verify st caller ref true (.success a)).2.bal caller =
        st.bal caller + p.amount ∧
      (verify st caller ref true (.success a)).1 =
        .ok "Payment verified" (st.bal caller + p.amount)) ∧
    (p.ptype ≠ "deposit" →
      (∀ u, (verify st caller ref true (.success a)).2.bal u = st.bal u) ∧
      (verify st caller ref true (.success a)).1 =
        .ok "Payment verified" (st.bal caller)) := by
  have hst : p.status ≠ "success" := by rw [hp]; decide
  have hfind2 : findPayment (setStatus st.payments ref "success") ref =
      some { p with status := "success" } := by
    rw [findPayment_setStatus, hfind]
    rfl
  by_cases hd : p.ptype = "deposit"
  · rw [verify_success_deposit st caller ref a p href hfind hst hd]
    exact ⟨hfind2, fun _ => ⟨by simp, rfl⟩, fun h => absurd hd h⟩
  · rw [verify_success_service st caller ref a p href hfind hst hd]
    exact ⟨hfind2, fun h => absurd h hd, fun _ => ⟨fun u => rfl, rfl⟩⟩

/-- C4 witness: a pending deposit of 500 settles to `success` and the
caller's post-operation balance 500 is returned. -/
theorem C4_witness :
    (verify (⟨fun _ => 0, [⟨1, "deposit", none, 500, "R4", "pending"⟩], []⟩ : St)
        1 "R4" true (.success 500)).2.bal 1 = 500 ∧
    (verify (⟨fun _ => 0, [⟨1, "deposit", none, 500, "R4", "pending"⟩], []⟩ : St)
        1 "R4" true (.success 500)).1 = .ok "Payment verified" 500 := by
  have h := C4_settle_completed_by_purpose
    (⟨fun _ => 0, [⟨1, "deposit", none, 500, "R4", "pending"⟩], []⟩ : St)
    1 "R4" 500 ⟨1, "deposit", none, 500, "R4", "pending"⟩
    (by decide) (by rfl) rfl
  exact ⟨by simpa using (h.2.1 rfl).1, by simpa using (h.2.1 rfl).2⟩

/-- C4 counterexample: a pending *service*-purpose intent (type
`airtime`, amount 100) settles to `success` but no balance is credited
— the claim's "any purpose ... adds the intent's recorded amount" fails
on the code. -/
theorem C4_counterexample_service_settle_no_credit :
    (verify (⟨fun _ => 0, [⟨1, "airtime", some "MTN", 100, "R5", "pending"⟩], []⟩ : St)
        1 "R5" true (.success 100)).2.bal 1 = 0 ∧
    findPayment (verify
        (⟨fun _ => 0, [⟨1, "airtime", some "MTN", 100, "R5", "pending"⟩], []⟩ : St)
        1 "R5" true (.success 100)).2.payments "R5" =
      some ⟨1, "airtime", some "MTN", 100, "R5", "success"⟩ := by
  exact ⟨rfl, rfl⟩

/-- C2: the claim says verify validates the gateway-reported amount
against the stored intent amount and fails mismatches as
`AmountMismatch`.  The code does not: variant A's verify never reads
the gateway amount — a pending intent of 500 whose gateway body reports
only 300 is still settled `success` with a 500 credit; and variant E's
verify compares the gateway amount against the *caller-supplied* amount
(0.01 tolerance), so a caller asserting 300 passes while one asserting
the true stored 500 would fail. -/
theorem C2_gateway_amount_not_validated_against_intent :
    (verify (⟨fun _ => 0, [⟨1, "deposit", none, 500, "R6", "pending"⟩], []⟩ : St)
        1 "R6" true (.success 300)).1 = .ok "Payment verified" 500 ∧
    (verify (⟨fun _ => 0, [⟨1, "deposit", none, 500, "R6", "pending"⟩], []⟩ : St)
        1 "R6" true (.success 300)).2.bal 1 = 500 ∧
    findPayment (verify
        (⟨fun _ => 0, [⟨1, "deposit", none, 500, "R6", "pending"⟩], []⟩ : St)
        1 "R6" true (.success 300)).2.payments "R6" =
      some ⟨1, "deposit", none, 500, "R6", "success"⟩ ∧
    ebusVerify "R6" 300 true 30000 = .ok 300 "R6" ∧
    ebusVerify "R6" 500 true 30000 = .err 400 "Amount mismatch" := by
  have hr : ("R6" : String) ≠ "" := by decide
  refine ⟨rfl, rfl, rfl, ?_, ?_⟩ <;> norm_num [ebusVerify, hr]

/-- C5 (amended): inserting a pending intent whose reference already
exists fails atomically — no row is inserted and the state is returned
unchanged — but the unique-constraint violation is surfaced as the
route's generic catch-all `500 "Initialization failed"`, not as a
distinct `DuplicateReference` error; a fresh reference inserts exactly
one pending row. -/
theorem C5_duplicate_reference_generic_500
    (st : St) (caller : Nat) (t : String) (sv : Option String) (a : Int)
    (g : String) (ht : t ≠ "") (ha : a ≠ 0) :
    ((findPayment st.payments g).isSome = true →
      initializePayment st caller t sv a g =
        (.err 500 "Initialization failed", st)) ∧
    ((findPayment st.payments g).isSome = false →
      initializePayment st caller t sv a g =
        (.ok g a,
          { st with payments := st.payments ++ [⟨caller, t, sv, a, g, "pending"⟩] })) := by
  constructor <;> intro h <;> simp [initializePayment, ht, ha, h]

/-- C5 witness: re-using reference `"R7"` makes initialize answer the
generic 500 and leave the state untouched. -/
theorem C5_witness :
    initializePayment
        (⟨fun _ => 0, [⟨1, "deposit", none, 500, "R7", "pending"⟩], []⟩ : St)
        2 "deposit" none 300 "R7" =
      (.err 500 "Initialization failed",
        (⟨fun _ => 0, [⟨1, "deposit", none, 500, "R7", "pending"⟩], []⟩ : St)) := by
  exact (C5_duplicate_reference_generic_500
    (⟨fun _ => 0, [⟨1, "deposit", none, 500, "R7", "pending"⟩], []⟩ : St)
    2 "deposit" none 300 "R7" (by decide) (by decide)).1 (by rfl)

/-- C5 counterexample: the claim requires a `DuplicateReference` error;
the code's response to a colliding reference is its generic catch-all
`500 "Initialization failed"` — indistinguishable from any other
initialization fault — so the claim fails as stated. -/
theorem C5_counterexample_no_duplicate_reference_kind :
    (initializePayment
        (⟨fun _ => 0, [⟨1, "airtime", some "MTN", 200, "R8", "pending"⟩], []⟩ : St)
        2 "airtime" (some "MTN") 200 "R8").1 = .err 500 "Initialization failed" ∧
    (initializePayment
        (⟨fun _ => 0, [⟨1, "airtime", some "MTN", 200, "R8", "pending"⟩], []⟩ : St)
        2 "airtime" (some "MTN") 200 "R8").2 =
      (⟨fun _ => 0, [⟨1, "airtime", some "MTN", 200, "R8", "pending"⟩], []⟩ : St) := by
  exact ⟨rfl, rfl⟩

/-- C8: the claim says every initialize/spend amount must be positive
and at/above a configured minimum, with violations rejected as
`InvalidInput` and no state change.  The code has no such guard on the
data-purchase and initialize paths: a *negative* amount passes the
JS truthiness check, and deducting it **credits** the account — data
purchase of −5 on a zero balance succeeds and leaves balance +5, and
initialize happily records a pending intent of −5. -/
theorem C8_negative_amount_accepted :
    (dataPurchase (⟨fun _ => 0, [], []⟩ : StB) 1 "MTN" "1GB" "0801" (-5) "D1").1 =
      .ok "Data purchase successful" "D1" 5 ∧
    (dataPurchase (⟨fun _ => 0, [], []⟩ : StB) 1 "MTN" "1GB" "0801" (-5) "D1").2.bal 1 =
      5 ∧
    (initializePayment (⟨fun _ => 0, [], []⟩ : St) 1 "deposit" none (-5) "NEG").1 =
      .ok "NEG" (-5) := by
  exact ⟨rfl, rfl, rfl⟩

/-- C6: the airtime debit on a validated request (fields present,
amount at the ₦50 minimum, freshly generated reference): a balance
strictly below the amount is refused as insufficient with the state
untouched; otherwise the balance is decremented by the amount, a
`completed` transaction carrying the fresh reference is appended (and
that reference occurs exactly once), and the reference and new balance
are returned. -/
theorem C6_airtime_insufficient_or_debit
    (st : StB) (caller : Nat) (network phone : String) (amount : Int)
    (genRef : String) (hnet : network ≠ "") (hph : phone ≠ "")
    (hmin : 50 ≤ amount) (hfresh : hasTxnRef st.txns genRef = false) :
    (st.bal caller < amount →
      airtime st caller network phone amount genRef =
        (.err 400 "Insufficient balance", st)) ∧
    (amount ≤ st.bal caller →
      (airtime st caller network phone amount genRef).1 =
        .ok "Airtime purchase successful" genRef (st.bal caller - amount) ∧
      (airtime st caller network phone amount genRef).2.bal caller =
        st.bal caller - amount ∧
      (airtime st caller network phone amount genRef).2.txns =
        st.txns ++ [⟨caller, "airtime", network ++ " Airtime - " ++ phone,
          amount, genRef, "completed"⟩] ∧
      ((airtime st caller network phone amount genRef).2.txns.filter
          (fun t => t.reference == genRef)).length = 1) := by
  have ha0 : amount ≠ 0 := by omega
  have hm : ¬ amount < 50 := by omega
  constructor
  · intro hlt
    simp [airtime, hnet, hph, ha0, hm, hlt]
  · intro hge
    have hnl : ¬ st.bal caller < amount := by omega
    have heq : airtime st caller network phone amount genRef =
        (.ok "Airtime purchase successful" genRef (st.bal caller - amount),
          { st with
            bal := fun u => if u = caller then st.bal u - amount else st.bal u,
            txns := st.txns ++ [⟨caller, "airtime",
              network ++ " Airtime - " ++ phone, amount, genRef, "completed"⟩] }) := by
      simp [airtime, hnet, hph, ha0, hm, hnl, hfresh]
    rw [heq]
    refine ⟨rfl, by simp, rfl, ?_⟩
    simp [List.filter_append, filter_ref_nil st.txns genRef hfresh]

/-- C6 witness: balance 100 — a 200 airtime buy is refused as
insufficient; a 60 buy leaves balance 40. -/
theorem C6_witness :
    airtime (⟨fun _ => 100, [], []⟩ : StB) 1 "MTN" "0801" 200 "A1" =
      (.err 400 "Insufficient balance", (⟨fun _ => 100, [], []⟩ : StB)) ∧
    (airtime (⟨fun _ => 100, [], []⟩ : StB) 1 "MTN" "0801" 60 "A1").2.bal 1 = 40 := by
  have h1 := C6_airtime_insufficient_or_debit (⟨fun _ => 100, [], []⟩ : StB)
    1 "MTN" "0801" 200 "A1" (by decide) (by decide) (by decide) (by rfl)
  have h2 := C6_airtime_insufficient_or_debit (⟨fun _ => 100, [], []⟩ : StB)
    1 "MTN" "0801" 60 "A1" (by decide) (by decide) (by decide) (by rfl)
  exact ⟨h1.1 (by norm_num), by simpa using (h2.2 (by norm_num)).2.1⟩

/-- C10: the in-memory deposit credits the caller-supplied amount —
of any sign, with no minimum, no gateway call and no reference
uniqueness check — so `n ≥ 1` repeated calls with one and the same
reference multiply: the balance grows by `n * amount` and `n`
identical-reference rows are appended to the ledger. -/
theorem C10_mem_deposit_repeats
    (st : MemSt) (cid : String) (a : Int) (r : String) (b : Int) (n : Nat)
    (hfind : st.users.find? (fun u => u.1 == cid) = some (cid, b))
    (hn : 1 ≤ n) :
    memBal (memDepositIter cid a r n st) cid = b + n * a ∧
    (memDepositIter cid a r n st).txns =
      st.txns ++ List.replicate n ⟨cid, "Deposit", a, r⟩ := by
  clear hn
  induction n generalizing st b with
  | zero => refine ⟨?_, ?_⟩ <;> simp [memDepositIter, memBal, hfind]
  | succ n ih =>
    have hstep : memDepositIter cid a r (n + 1) st =
        memDepositIter cid a r n
          ⟨st.users.map (fun u => if u.1 == cid then (u.1, u.2 + a) else u),
            st.txns ++ [⟨cid, "Deposit", a, r⟩]⟩ := by
      rw [memDepositIter, memDeposit_found st cid a r (cid, b) hfind]
    have hfind2 :
        (st.users.map (fun u => if u.1 == cid then (u.1, u.2 + a) else u)).find?
          (fun u => u.1 == cid) = some (cid, b + a) := by
      rw [memFind_update, hfind]
      rfl
    obtain ⟨ih1, ih2⟩ :=
      ih ⟨st.users.map (fun u => if u.1 == cid then (u.1, u.2 + a) else u),
          st.txns ++ [⟨cid, "Deposit", a, r⟩]⟩ (b + a) hfind2
    rw [hstep]
    constructor
    · rw [ih1]
      push_cast
      ring
    · rw [ih2]
      simp [List.replicate_succ]

/-- C10 witness: three deposits of 200 under the same reference `"RR"`
take the balance from 0 to 600 and append three identical rows. -/
theorem C10_witness :
    memBal (memDepositIter "u1" 200 "RR" 3 ⟨[("u1", 0)], []⟩) "u1" = 600 ∧
    (memDepositIter "u1" 200 "RR" 3 ⟨[("u1", 0)], []⟩).txns =
      List.replicate 3 ⟨"u1", "Deposit", 200, "RR"⟩ := by
  have h := C10_mem_deposit_repeats ⟨[("u1", 0)], []⟩ "u1" 200 "RR" 0 3
    (by rfl) (by decide)
  exact ⟨by simpa using h.1, by simpa using h.2⟩

/-- C3 (amended): error responses from the validation paths leave the
state exactly as it was, but the code can mutate *before* erroring:
initialize never errors after a write; verify's errors never touch a
balance or a transactions row, yet its gateway-failure error has
already marked the payment `failed`; and deposit/airtime/data commit
the balance change before their ledger insert, so an error caused by a
colliding reference leaves the balance already credited (deposit) or
debited (purchases). -/
theorem C3_amended_error_mutation_boundary :
    (∀ (st : St) (c : Nat) (t : String) (sv : Option String) (a : Int)
        (g : String) (k : Nat) (m : String),
      (initializePayment st c t sv a g).1 = .err k m →
        (initializePayment st c t sv a g).2 = st) ∧
    (∀ (st : St) (c : Nat) (r : String) (sec : Bool) (gw : GwResult)
        (k : Nat) (m : String),
      (verify st c r sec gw).1 = .err k m →
        (∀ u, (verify st c r sec gw).2.bal u = st.bal u) ∧
        (verify st c r sec gw).2.txns = st.txns ∧
        ((verify st c r sec gw).2 = st ∨
          m = "Payment not successful on Paystack")) ∧
    (∀ (st : StB) (c : Nat) (a : Int) (ro : Option String) (g : String)
        (k : Nat) (m : String),
      (deposit st c a ro g).1 = .err k m →
        ((deposit st c a ro g).2 = st ∨
          ∀ u, (deposit st c a ro g).2.bal u =
            if u = c then st.bal u + a else st.bal u)) ∧
    (∀ (st : StB) (c : Nat) (nw ph : String) (a : Int) (g : String)
        (k : Nat) (m : String),
      (airtime st c nw ph a g).1 = .err k m →
        ((airtime st c nw ph a g).2 = st ∨
          ∀ u, (airtime st c nw ph a g).2.bal u =
            if u = c then st.bal u - a else st.bal u)) ∧
    (∀ (st : StB) (c : Nat) (nw pl ph : String) (a : Int) (g : String)
        (k : Nat) (m : String),
      (dataPurchase st c nw pl ph a g).1 = .err k m →
        ((dataPurchase st c nw pl ph a g).2 = st ∨
          ∀ u, (dataPurchase st c nw pl ph a g).2.bal u =
            if u = c then st.bal u - a else st.bal u)) := by
  refine ⟨?_, ?_, ?_, ?_, ?_⟩
  · intro st c t sv a g k m h
    by_cases h1 : t = "" ∨ a = 0
    · simp [initializePayment, h1]
    · by_cases h2 : (findPayment st.payments g).isSome
      · simp [initializePayment, h1, h2]
      · exfalso
        simp [initializePayment, h1, h2] at h
  · intro st c r sec gw k m h
    by_cases h1 : r = ""
    · refine ⟨fun u => ?_, ?_, Or.inl ?_⟩ <;> simp [verify, h1]
    · cases hf : findPayment st.payments r with
      | none => refine ⟨fun u => ?_, ?_, Or.inl ?_⟩ <;> simp [verify, h1, hf]
      | some p =>
        by_cases h2 : p.status = "success"
        · rw [verify_stable st c r sec gw p h1 hf h2] at h
          exact absurd h (by simp)
        · cases sec with
          | false =>
            refine ⟨fun u => ?_, ?_, Or.inl ?_⟩ <;> simp [verify, h1, hf, h2]
          | true =>
            cases gw with
            | transientError =>
              refine ⟨fun u => ?_, ?_, Or.inl ?_⟩ <;> simp [verify, h1, hf, h2]
            | failure =>
              have heq : verify st c r true .failure =
                  (.err 400 "Payment not successful on Paystack",
                    { st with payments := setStatus st.payments r "failed" }) := by
                simp [verify, h1, hf, h2]
              rw [heq] at h
              rw [heq]
              simp only [Resp.err.injEq] at h
              exact ⟨fun u => rfl, rfl, Or.inr h.2.symm⟩
            | success a =>
              by_cases hd : p.ptype = "deposit"
              · rw [verify_success_deposit st c r a p h1 hf h2 hd] at h
                exact absurd h (by simp)
              · rw [verify_success_service st c r a p h1 hf h2 hd] at h
                exact absurd h (by simp)
  · intro st c a ro g k m h
    by_cases h1 : a = 0 ∨ a < 100
    · exact Or.inl (by simp [deposit, h1])
    · by_cases h2 : hasDepRef st.deposits (orDefault ro g)
      · exact Or.inr fun u => by simp [deposit, h1, h2]
      · by_cases h3 : hasTxnRef st.txns (orDefault ro g)
        · exact Or.inr fun u => by simp [deposit, h1, h2, h3]
        · exfalso
          simp [deposit, h1, h2, h3] at h
  · intro st c nw ph a g k m h
    by_cases h1 : nw = "" ∨ ph = "" ∨ a = 0
    · exact Or.inl (by simp [airtime, h1])
    · by_cases h2 : a < 50
      · exact Or.inl (by simp [airtime, h1, h2])
      · by_cases h3 : st.bal c < a
        · exact Or.inl (by simp [airtime, h1, h2, h3])
        · by_cases h4 : hasTxnRef st.txns g
          · exact Or.inr fun u => by simp [airtime, h1, h2, h3, h4]
          · exfalso
            simp [airtime, h1, h2, h3, h4] at h
  · intro st c nw pl ph a g k m h
    by_cases h1 : nw = "" ∨ pl = "" ∨ ph = "" ∨ a = 0
    · exact Or.inl (by simp [dataPurchase, h1])
    · by_cases h2 : st.bal c < a
      · exact Or.inl (by simp [dataPurchase, h1, h2])
      · by_cases h3 : hasTxnRef st.txns g
        · exact Or.inr fun u => by simp [dataPurchase, h1, h2, h3]
        · exfalso
          simp [dataPurchase, h1, h2, h3] at h

/-- C3 witness: an initialize with missing fields errors and the state
is exactly the input state. -/
theorem C3_witness :
    (initializePayment (⟨fun _ => 0, [], []⟩ : St) 1 "" none 0 "G1").2 =
      (⟨fun _ => 0, [], []⟩ : St) :=
  C3_amended_error_mutation_boundary.1 (⟨fun _ => 0, [], []⟩ : St) 1 "" none 0
    "G1" 400 "Missing fields" (by rfl)

/-- C3 counterexample: `POST /api/deposit` with an already-used
reference answers the 500 catch-all error, yet the balance credit has
already committed — an error response does *not* imply "nothing
changed", falsifying the claim as stated. -/
theorem C3_counterexample_deposit_error_after_credit :
    (deposit (⟨fun _ => 0, [], [⟨1, 200, "R9", "completed"⟩]⟩ : StB)
        1 200 (some "R9") "G2").1 = .err 500 "Server error" ∧
    (deposit (⟨fun _ => 0, [], [⟨1, 200, "R9", "completed"⟩]⟩ : StB)
        1 200 (some "R9") "G2").2.bal 1 = 200 := by
  exact ⟨rfl, rfl⟩

end EbusPay
